import Mathlib

/-!
Shallow embedding of the Local SEO analyzer (src/server.js): string
utilities mirroring the JavaScript string and regex operations used by the
analyzer, the data model of the produced report, the scoring pipeline
(`buildReport`, `analyzeWebsite`) and the listing lookup (`checkGBP`).
External collaborators (the HTTP fetch, the cheerio DOM extraction and the
places API) are passed in as explicit parameters, so every function here is
pure and executable.
-/

/-- Characters matched by the JavaScript regex class `\s` (ASCII part). -/
def jsSpace (c : Char) : Bool :=
  c == ' ' || c == '\t' || c == '\n' || c == '\r' || c == '\x0b' || c == '\x0c'

/-- Trim `jsSpace` characters from both ends of a character list,
modelling `String.prototype.trim`. -/
def jsTrimList (l : List Char) : List Char :=
  ((l.dropWhile jsSpace).reverse.dropWhile jsSpace).reverse

/-- JavaScript `s.trim()`. -/
def jsTrimS (s : String) : String :=
  String.mk (jsTrimList s.data)

/-- JavaScript `s.toLowerCase()` (ASCII case folding). -/
def strLower (s : String) : String :=
  String.mk (s.data.map Char.toLower)

/-- Does `l` start with `pat` (character-exact)? -/
def hasPre : List Char → List Char → Bool
  | [], _ => true
  | _ :: _, [] => false
  | a :: as, b :: bs => a == b && hasPre as bs

/-- Does `l` contain `pat` as a contiguous run, at any position? -/
def hasSub (pat : List Char) : List Char → Bool
  | [] => hasPre pat []
  | c :: t => hasPre pat (c :: t) || hasSub pat t

/-- JavaScript `s.includes(pat)`. -/
def strIncludes (s pat : String) : Bool :=
  hasSub pat.data s.data

/-- Number of maximal runs of non-`jsSpace` characters; the flag records
whether the previous character was inside such a run. -/
def countTokensAux : Bool → List Char → Nat
  | _, [] => 0
  | inTok, c :: r =>
    if jsSpace c then countTokensAux false r
    else (if inTok then 0 else 1) + countTokensAux true r

/-- JavaScript `s.split(/\s+/).filter(w => w.length > 0).length`. -/
def wordCountOf (s : String) : Nat :=
  countTokensAux false s.data

/-- Consume exactly `n` characters matching `\d`; return the rest. -/
def digitsN : Nat → List Char → Option (List Char)
  | 0, l => some l
  | _ + 1, [] => none
  | n + 1, c :: r => if c.isDigit then digitsN n r else none

/-- Match of the first phone alternative at the head of the list:
a literal open paren, three digits, close paren, optional spaces, three
digits, a dash or dot, four digits. -/
def phoneAt1 (l : List Char) : Bool :=
  match l with
  | '(' :: r =>
    match digitsN 3 r with
    | some (')' :: r2) =>
      match digitsN 3 (r2.dropWhile jsSpace) with
      | some (c :: r4) => (c == '-' || c == '.') && (digitsN 4 r4).isSome
      | _ => false
    | _ => false
  | _ => false

/-- Match of the second phone alternative at the head of the list:
three digits, dash or dot, three digits, dash or dot, four digits. -/
def phoneAt2 (l : List Char) : Bool :=
  match digitsN 3 l with
  | some (c1 :: r1) =>
    (c1 == '-' || c1 == '.') &&
      (match digitsN 3 r1 with
       | some (c2 :: r2) => (c2 == '-' || c2 == '.') && (digitsN 4 r2).isSome
       | _ => false)
  | _ => false

/-- Does `p` match at some position of `l` (the unanchored `.test`)? -/
def scanAny (p : List Char → Bool) : List Char → Bool
  | [] => p []
  | c :: rest => p (c :: rest) || scanAny p rest

/-- The phone regex test of the analyzer. -/
def hasPhone (html : String) : Bool :=
  scanAny (fun l => phoneAt1 l || phoneAt2 l) html.data

/-- Case-insensitive match of a lowercase pattern at the head of the list. -/
def hasPreCI : List Char → List Char → Bool
  | [], _ => true
  | _ :: _, [] => false
  | a :: as, b :: bs => (b.toLower == a) && hasPreCI as bs

/-- One of the street-type tokens of the address regex, case-insensitive. -/
def streetTok (l : List Char) : Bool :=
  hasPreCI "street".data l || hasPreCI "st".data l || hasPreCI "avenue".data l ||
    hasPreCI "ave".data l || hasPreCI "road".data l || hasPreCI "rd".data l ||
    hasPreCI "drive".data l || hasPreCI "dr".data l

/-- After the leading whitespace of the address regex: at least one
non-comma character, then a street token. -/
def addrScan : List Char → Bool
  | [] => false
  | c :: rest => (c != ',') && (streetTok rest || addrScan rest)

/-- Match of the address regex at the head of the list: digits, at least
one whitespace character, at least one non-comma character, street token. -/
def addrAt (l : List Char) : Bool :=
  match l with
  | [] => false
  | c :: rest =>
    c.isDigit &&
      (match rest.dropWhile Char.isDigit with
       | [] => false
       | w :: v => jsSpace w && addrScan v)

/-- The address regex test of the analyzer. -/
def hasAddress (html : String) : Bool :=
  scanAny addrAt html.data

/-- ASCII letters and digits, the class kept by the punctuation strip. -/
def isAsciiAlnum (c : Char) : Bool :=
  decide (('a' ≤ c ∧ c ≤ 'z') ∨ ('A' ≤ c ∧ c ≤ 'Z') ∨ ('0' ≤ c ∧ c ≤ '9'))

/-- JavaScript `s.replace(/[^a-zA-Z0-9\s]/g, '')`. -/
def stripPunct (s : String) : String :=
  String.mk (s.data.filter (fun c => isAsciiAlnum c || jsSpace c))

/-- Left-to-right global replacement of the alternation `inc`, `llc`,
`corp` by the empty string, as `String.prototype.replace` with a `g` flag
performs it. -/
def removeEnt : List Char → List Char
  | 'i' :: 'n' :: 'c' :: rest => removeEnt rest
  | 'l' :: 'l' :: 'c' :: rest => removeEnt rest
  | 'c' :: 'o' :: 'r' :: 'p' :: rest => removeEnt rest
  | c :: rest => c :: removeEnt rest
  | [] => []

/-- JavaScript `s.replace(/inc|llc|corp/g, '')`. -/
def removeEntS (s : String) : String :=
  String.mk (removeEnt s.data)

/-! ## Data model of the report -/

/-- One entry of the `issues` list. -/
structure Issue where
  priority : String
  category : String
  issue : String
  fix : String
deriving DecidableEq

/-- The `scores` object of a report. -/
structure Scores where
  overall : Nat
  onPage : Nat
  «local» : Nat
  technical : Nat
  gbp : Nat
deriving DecidableEq

/-- The `onPageChecks` record of boolean check outcomes. -/
structure OnPageChecks where
  titleOptimized : Bool
  titleHasCity : Bool
  metaPresent : Bool
  metaOptimized : Bool
  h1Present : Bool
  h1HasCity : Bool
  contentLength : Bool
deriving DecidableEq

/-- The `localChecks` record of boolean check outcomes. -/
structure LocalChecks where
  cityInContent : Bool
  hasPhone : Bool
  hasAddress : Bool
  hasLocalSchema : Bool
deriving DecidableEq

/-- One result entry of the places API response. -/
structure Place where
  name : String
  rating : ℚ
  user_ratings_total : Nat
  formatted_address : String
deriving DecidableEq

/-- Outcome of the listing lookup (`checkGBP`). -/
structure ListingResult where
  found : Bool
  name : Option String := none
  rating : Option ℚ := none
  reviews : Option Nat := none
  address : Option String := none
  error : Option String := none
deriving DecidableEq

/-- What the cheerio DOM queries extract from the fetched HTML; passed in
as an oracle because the markup extractor is an external collaborator. -/
structure DomData where
  title : String
  metaDescriptionAttr : Option String
  h1s : List String
  images : Nat
  imagesWithAlt : Nat
  bodyText : String
deriving DecidableEq

/-- The `pageData` object the analyzer derives from the DOM and the
lowercased HTML. -/
structure PageData where
  title : String
  metaDescription : String
  h1s : List String
  images : Nat
  imagesWithAlt : Nat
  wordCount : Nat
  hasSchema : Bool
deriving DecidableEq

/-- The successful analysis result object. -/
structure Report where
  url : String
  businessName : String
  location : String
  analyzedAt : String
  scores : Scores
  issues : List Issue
  opportunities : List String
  whatsWorking : List String
  topRecommendation : String
  checksOnPage : OnPageChecks
  checksLocal : LocalChecks
  googleBusinessProfile : ListingResult
deriving DecidableEq

/-- What `analyzeWebsite` returns: the full report on success, or the
error-shaped object `\x7b error, scores \x7d` from the catch branch. -/
inductive AnalyzeResult where
  | ok (r : Report)
  | err (error : String) (scores : Scores)
deriving DecidableEq

/-- The scores carried by either shape of result. -/
def scoresOf : AnalyzeResult → Scores
  | AnalyzeResult.ok r => r.scores
  | AnalyzeResult.err _ s => s

/-! ## The pipeline -/

/-- JavaScript `s.startsWith(pat)`. -/
def jsStartsWith (s pat : String) : Bool :=
  hasPre pat.data s.data

/-- Scheme defaulting done at the top of the try block. -/
def normalizeUrl (url : String) : String :=
  if jsStartsWith url "http" then url else "https://" ++ url

/-- JavaScript `s.split(',')`: the accumulator holds the current segment
reversed. -/
def splitComma (acc : List Char) : List Char → List (List Char)
  | [] => [acc.reverse]
  | c :: rest =>
    if c == ',' then acc.reverse :: splitComma [] rest else splitComma (c :: acc) rest

/-- `location.split(',').map(p => p.trim().toLowerCase())[0]`. -/
def cityOf (location : String) : String :=
  ((splitComma [] location.data).map (fun p => strLower (jsTrimS (String.mk p)))).headD ""

/-- The `pageData` object: trimmed title, meta description defaulted to
the empty string, trimmed h1 texts, body word count, and the unused
structured-data flag computed from the lowercased HTML. -/
def mkPageData (dom : DomData) (lowerHtml : String) : PageData :=
  { title := jsTrimS dom.title
    metaDescription := dom.metaDescriptionAttr.getD ""
    h1s := dom.h1s.map jsTrimS
    images := dom.images
    imagesWithAlt := dom.imagesWithAlt
    wordCount := wordCountOf dom.bodyText
    hasSchema := strIncludes lowerHtml "\"@type\"" || strIncludes lowerHtml "schema.org" }

/-- The on-page checks record. -/
def mkOnPageChecks (pd : PageData) (city : String) : OnPageChecks :=
  { titleOptimized := decide (30 ≤ pd.title.length ∧ pd.title.length ≤ 60)
    titleHasCity := strIncludes (strLower pd.title) city
    metaPresent := decide (0 < pd.metaDescription.length)
    metaOptimized := decide (120 ≤ pd.metaDescription.length ∧ pd.metaDescription.length ≤ 160)
    h1Present := decide (pd.h1s.length = 1)
    h1HasCity := pd.h1s.any (fun h => strIncludes (strLower h) city)
    contentLength := decide (300 ≤ pd.wordCount) }

/-- The local checks record. -/
def mkLocalChecks (html lowerHtml city : String) : LocalChecks :=
  { cityInContent := strIncludes lowerHtml city
    hasPhone := hasPhone html
    hasAddress := hasAddress html
    hasLocalSchema := strIncludes lowerHtml "localbusiness" ||
      strIncludes lowerHtml "\"@type\": \"localbusiness\"" }

/-- Points accumulated by the on-page checks. -/
def onPageScoreOf (c : OnPageChecks) : Nat :=
  (if c.titleOptimized then 20 else 0) + (if c.titleHasCity then 20 else 0) +
    (if c.metaOptimized then 15 else 0) + (if c.h1Present then 15 else 0) +
    (if c.h1HasCity then 15 else 0) + (if c.contentLength then 15 else 0)

/-- Issues pushed by the on-page checks, in execution order. -/
def onPageIssuesOf (c : OnPageChecks) (pd : PageData) (city : String) : List Issue :=
  (if c.titleOptimized then [] else
    [⟨"high", "Title", "Title not optimized", "Keep title 30-60 characters"⟩]) ++
  (if c.titleHasCity then [] else
    [⟨"critical", "Local SEO", "Title missing city", "Add \"" ++ city ++ "\" to title tag"⟩]) ++
  (if c.metaOptimized then []
   else if 0 < pd.metaDescription.length then
    [⟨"medium", "Meta", "Meta description not optimized", "Keep meta 120-160 characters"⟩]
   else
    [⟨"high", "Meta", "Missing meta description", "Add compelling meta description"⟩]) ++
  (if c.h1Present then [] else
    [⟨"high", "H1", if pd.h1s.length = 0 then "Missing H1" else "Multiple H1s",
      "Use exactly one H1"⟩]) ++
  (if c.h1HasCity then [] else
    [⟨"critical", "H1 Local", "H1 missing city", "Add \"" ++ city ++ "\" to your H1"⟩]) ++
  (if c.contentLength then [] else
    [⟨"medium", "Content", "Thin content", "Add more content (500+ words)"⟩])

/-- The NAP issue pushed when phone or address is missing. -/
def napIssue : Issue :=
  ⟨"critical", "NAP", "Missing NAP", "Add phone + address to footer"⟩

/-- The schema issue pushed when the LocalBusiness marker is missing. -/
def schemaIssue : Issue :=
  ⟨"high", "Schema", "No LocalBusiness schema", "Add JSON-LD schema markup"⟩

/-- Points accumulated by the local checks. -/
def localScoreOf (c : LocalChecks) : Nat :=
  (if c.cityInContent then 30 else 0) +
    (if c.hasPhone && c.hasAddress then 25 else 0) +
    (if c.hasLocalSchema then 25 else 0)

/-- Issues pushed by the local checks, in execution order. -/
def localIssuesOf (c : LocalChecks) (city : String) : List Issue :=
  (if c.cityInContent then [] else
    [⟨"critical", "Content", "Missing city in content", "Mention \"" ++ city ++ "\" 3-5 times"⟩]) ++
  (if c.hasPhone && c.hasAddress then [] else [napIssue]) ++
  (if c.hasLocalSchema then [] else [schemaIssue])

/-- The security issue pushed for a non-HTTPS URL. -/
def securityIssue : Issue :=
  ⟨"critical", "Security", "Not HTTPS", "Install SSL certificate"⟩

/-- The issue pushed when the listing lookup finds nothing. -/
def gbpIssue : Issue :=
  ⟨"critical", "GBP", "GBP not found", "Verify GBP is claimed"⟩

/-- `Math.round` of `n / 100` for a natural `n`, as exact arithmetic:
JavaScript rounds halves up, which is floor after adding one half. -/
def jsRound100 (n : Nat) : Nat :=
  (n + 50) / 100

/-- The top recommendation: first critical fix, else first fix, else the
static positive message. -/
def topRecommendationOf (issues : List Issue) : String :=
  match issues.filter (fun i => i.priority == "critical") with
  | c :: _ => "Priority: " ++ c.fix
  | [] =>
    match issues with
    | i :: _ => "Next: " ++ i.fix
    | [] => "Great job! Get more reviews to improve rankings."

/-- The positive indicators collected at the end of the pipeline. -/
def whatsWorkingOf (opc : OnPageChecks) (lc : LocalChecks) (gbp : ListingResult) : List String :=
  (if opc.titleHasCity then ["Title includes city"] else []) ++
    (if lc.cityInContent then ["Content has location"] else []) ++
    (if lc.hasLocalSchema then ["Schema markup present"] else []) ++
    (if gbp.found then ["GBP is active"] else [])

/-- The whole success path of `analyzeWebsite` after a fetched HTML body:
extraction, checks, scoring, listing lookup (an oracle taking the business
name and the city) and aggregation into the report. -/
def buildReport (cheerio : String → DomData) (gbpLookup : String → String → ListingResult)
    (now url businessName location html : String) : Report :=
  let urlN := normalizeUrl url
  let lowerHtml := strLower html
  let pd := mkPageData (cheerio html) lowerHtml
  let city := cityOf location
  let opc := mkOnPageChecks pd city
  let lc := mkLocalChecks html lowerHtml city
  let onPageScore := min 100 (onPageScoreOf opc)
  let localScore := min 100 (localScoreOf lc)
  let techScore := if jsStartsWith urlN "https" then 85 else 50
  let gbp := gbpLookup businessName city
  let gbpScore := if gbp.found then 100 else 0
  let issues := onPageIssuesOf opc pd city ++ localIssuesOf lc city ++
    (if jsStartsWith urlN "https" then [] else [securityIssue]) ++
    (if gbp.found then [] else [gbpIssue])
  { url := url
    businessName := businessName
    location := location
    analyzedAt := now
    scores :=
      { overall := jsRound100 (30 * onPageScore + 35 * localScore + 15 * techScore + 20 * gbpScore)
        onPage := onPageScore
        «local» := localScore
        technical := techScore
        gbp := gbpScore }
    issues := issues
    opportunities := []
    whatsWorking := whatsWorkingOf opc lc gbp
    topRecommendation := topRecommendationOf issues
    checksOnPage := opc
    checksLocal := lc
    googleBusinessProfile := gbp }

/-- `analyzeWebsite`: the fetch outcome is passed in as an oracle; any
fetch failure is converted by the catch branch into the error-shaped
result with all-zero scores. -/
def analyzeWebsite (cheerio : String → DomData) (gbpLookup : String → String → ListingResult)
    (now url businessName location : String) (fetched : Except String String) : AnalyzeResult :=
  match fetched with
  | Except.error e =>
    AnalyzeResult.err e { overall := 0, onPage := 0, «local» := 0, technical := 0, gbp := 0 }
  | Except.ok html =>
    AnalyzeResult.ok (buildReport cheerio gbpLookup now url businessName location html)

/-! ## The listing lookup -/

/-- The three query variations tried by `checkGBP`, in order. -/
def gbpQueries (businessName city : String) : List String :=
  [businessName ++ " " ++ city,
   stripPunct businessName ++ " " ++ city,
   jsTrimS (removeEntS (strLower businessName)) ++ " " ++ city]

/-- JavaScript truthiness of the configured API key. -/
def keyTruthy : Option String → Bool
  | none => false
  | some s => s != ""

/-- The query loop of `checkGBP`: a thrown query error is caught outside
the loop, so it ends the whole lookup; an empty result list falls through
to the next query; a non-empty one returns its first entry. -/
def runQueries (api : String → Except String (List Place)) : List String → ListingResult
  | [] => { found := false }
  | q :: rest =>
    match api q with
    | Except.error e => { found := false, error := some e }
    | Except.ok [] => runQueries api rest
    | Except.ok (p :: _) =>
      { found := true, name := some p.name, rating := some p.rating,
        reviews := some p.user_ratings_total, address := some p.formatted_address }

/-- `checkGBP`: no truthy API key short-circuits to an explicit error
marker; otherwise the three query variations are tried in order. -/
def checkGBP (apiKey : Option String) (api : String → Except String (List Place))
    (businessName city : String) : ListingResult :=
  if keyTruthy apiKey then runQueries api (gbpQueries businessName city)
  else { found := false, error := some "No API key" }

/-! ## Auxiliary definitions used by the statements -/

/-- Overwrite the `analyzedAt` stamp of a result, for comparing two
results up to the time oracle. -/
def withAnalyzedAt (t : String) : AnalyzeResult → AnalyzeResult
  | AnalyzeResult.ok r => AnalyzeResult.ok { r with analyzedAt := t }
  | AnalyzeResult.err e s => AnalyzeResult.err e s

/-- The listing result built from the first place of a non-empty response. -/
def foundResult (p : Place) : ListingResult :=
  { found := true, name := some p.name, rating := some p.rating,
    reviews := some p.user_ratings_total, address := some p.formatted_address }

/-- A places query outcome that does not produce a hit: a thrown error or
an empty result list. -/
def noHit : Except String (List Place) → Prop
  | Except.error _ => True
  | Except.ok l => l = []

/-- n-fold repetition of a string. -/
def repeatStr : Nat → String → String
  | 0, _ => ""
  | n + 1, s => s ++ repeatStr n s

/-- A DOM extraction with every field empty. -/
def emptyDom : DomData :=
  ⟨"", none, [], 0, 0, ""⟩

/-- A listing lookup stub that never finds the business. -/
def noFindLookup : String → String → ListingResult :=
  fun _ _ => { found := false }

/-- A listing lookup stub that always finds the business. -/
def foundLookup : String → String → ListingResult :=
  fun _ _ => { found := true, name := some "Joes Pizza", rating := some 5,
               reviews := some 12, address := some "123 Main Street" }

/-- Title fixture of 36 characters containing the city. -/
def passTitle : String := "Joes Pizza - Best Pizza in Lancaster"

/-- Meta description fixture of 130 characters. -/
def passMeta : String := String.mk (List.replicate 130 'a')

/-- A DOM extraction on which every on-page check passes: one H1 with the
city and a 300-word body. -/
def passDom : DomData :=
  ⟨passTitle, some passMeta, ["Best Pizza in Lancaster"], 0, 0, repeatStr 300 "w "⟩

/-- HTML fixture containing the city, a phone, an address and a
LocalBusiness marker. -/
def passHtml : String :=
  "(717) 555-0100 123 Main Street, Lancaster, PA LocalBusiness"

/-! ## Lemmas about the string primitives -/

lemma data_empty : ("" : String).data = [] := rfl

lemma hasSub_nil (l : List Char) : hasSub [] l = true := by
  cases l <;> simp [hasSub, hasPre]

lemma strIncludes_empty (s : String) : strIncludes s "" = true := by
  have := hasSub_nil s.data
  simpa [strIncludes, data_empty] using this

lemma hasPre_iff (pat l : List Char) : hasPre pat l = true ↔ ∃ t, l = pat ++ t := by
  induction pat generalizing l with
  | nil => simp [hasPre]
  | cons a as ih =>
    cases l with
    | nil => simp [hasPre]
    | cons b bs =>
      simp only [hasPre, Bool.and_eq_true, beq_iff_eq, ih, List.cons_append, List.cons.injEq]
      constructor
      · rintro ⟨rfl, t, rfl⟩
        exact ⟨t, rfl, rfl⟩
      · rintro ⟨t, rfl, rfl⟩
        exact ⟨rfl, t, rfl⟩

lemma hasSub_iff (pat l : List Char) : hasSub pat l = true ↔ ∃ s t, l = s ++ pat ++ t := by
  induction l with
  | nil =>
    simp only [hasSub, hasPre_iff]
    constructor
    · rintro ⟨t, h⟩
      exact ⟨[], t, by simpa using h⟩
    · rintro ⟨s, t, h⟩
      have h2 := h.symm
      rw [List.append_assoc] at h2
      rcases List.append_eq_nil.mp h2 with ⟨hs, hpt⟩
      rcases List.append_eq_nil.mp hpt with ⟨hp, ht⟩
      exact ⟨[], by simp [hp]⟩
  | cons c cs ih =>
    simp only [hasSub, Bool.or_eq_true, hasPre_iff, ih]
    constructor
    · rintro (⟨t, h⟩ | ⟨s, t, h⟩)
      · exact ⟨[], t, by simpa using h⟩
      · exact ⟨c :: s, t, by simp [h]⟩
    · rintro ⟨s, t, h⟩
      cases s with
      | nil => exact Or.inl ⟨t, by simpa using h⟩
      | cons x xs =>
        right
        have h2 : c = x ∧ cs = xs ++ pat ++ t := by simpa using h
        exact ⟨xs, t, h2.2⟩

lemma hasSub_of_surround (pre pat suf s : List Char)
    (h : hasSub (pre ++ pat ++ suf) s = true) : hasSub pat s = true := by
  rw [hasSub_iff] at h ⊢
  obtain ⟨u, t, rfl⟩ := h
  exact ⟨u ++ pre, suf ++ t, by simp [List.append_assoc]⟩

lemma hasLocalSchema_eq (lh : String) :
    (strIncludes lh "localbusiness" || strIncludes lh "\"@type\": \"localbusiness\"") =
      strIncludes lh "localbusiness" := by
  cases h : strIncludes lh "\"@type\": \"localbusiness\"" with
  | false => simp
  | true =>
    have e : ("\"@type\": \"localbusiness\"".data : List Char) =
        "\"@type\": \"".data ++ "localbusiness".data ++ "\"".data := by decide
    have h2 : hasSub ("\"@type\": \"".data ++ "localbusiness".data ++ "\"".data)
        lh.data = true := by
      rw [← e]
      exact h
    have h1 : strIncludes lh "localbusiness" = true := hasSub_of_surround _ _ _ _ h2
    rw [h1]
    simp

lemma any_eq_not_isEmpty {α : Type} (l : List α) (f : α → Bool) (hf : ∀ x, f x = true) :
    l.any f = !l.isEmpty := by
  cases l with
  | nil => simp
  | cons a t => simp [hf]

/-! ## Arithmetic lemmas for the scores -/

lemma ite_le {p : Prop} [Decidable p] {x y z : Nat} (hx : x ≤ z) (hy : y ≤ z) :
    (if p then x else y) ≤ z := by
  split <;> assumption

lemma jsRound100_le (a b c d : Nat) (ha : a ≤ 100) (hb : b ≤ 100) (hc : c ≤ 100)
    (hd : d ≤ 100) : jsRound100 (30 * a + 35 * b + 15 * c + 20 * d) ≤ 100 := by
  unfold jsRound100
  omega

lemma floor_natCast_div_hundred (N : ℕ) : ⌊((N : ℚ)) / 100⌋ = ((N / 100 : ℕ) : ℤ) := by
  have h100 : (0 : ℚ) < 100 := by norm_num
  rw [Int.floor_eq_iff]
  constructor
  · rw [le_div_iff₀ h100]
    exact_mod_cast Nat.div_mul_le_self N 100
  · rw [div_lt_iff₀ h100]
    have h : N < (N / 100 + 1) * 100 := by omega
    exact_mod_cast h

lemma jsRound100_eq_round (a b c d : ℕ) :
    ((jsRound100 (30 * a + 35 * b + 15 * c + 20 * d) : ℕ) : ℤ) =
      round ((a : ℚ) * 0.3 + (b : ℚ) * 0.35 + (c : ℚ) * 0.15 + (d : ℚ) * 0.2) := by
  have hx : (a : ℚ) * 0.3 + (b : ℚ) * 0.35 + (c : ℚ) * 0.15 + (d : ℚ) * 0.2 + 1 / 2 =
      ((30 * a + 35 * b + 15 * c + 20 * d + 50 : ℕ) : ℚ) / 100 := by
    push_cast
    norm_num
    ring
  rw [round_eq, hx, floor_natCast_div_hundred]
  simp [jsRound100]

lemma onPageScore_ge_20 (c : OnPageChecks) (h : c.titleHasCity = true) :
    20 ≤ onPageScoreOf c := by
  unfold onPageScoreOf
  rw [h]
  simp only [if_true]
  omega

lemma localScore_ge_30 (c : LocalChecks) (h : c.cityInContent = true) :
    30 ≤ localScoreOf c := by
  unfold localScoreOf
  rw [h]
  simp only [if_true]
  omega

/-! ## Unfolding lemmas for the report construction -/

section Unfolding

variable (cheerio : String → DomData) (gbpLookup : String → String → ListingResult)
variable (now url businessName location html : String)

lemma buildReport_scores_onPage :
    (buildReport cheerio gbpLookup now url businessName location html).scores.onPage =
      min 100 (onPageScoreOf
        (mkOnPageChecks (mkPageData (cheerio html) (strLower html)) (cityOf location))) := rfl

lemma buildReport_scores_local :
    (buildReport cheerio gbpLookup now url businessName location html).scores.«local» =
      min 100 (localScoreOf (mkLocalChecks html (strLower html) (cityOf location))) := rfl

lemma buildReport_scores_technical :
    (buildReport cheerio gbpLookup now url businessName location html).scores.technical =
      (if jsStartsWith (normalizeUrl url) "https" then 85 else 50) := rfl

lemma buildReport_scores_gbp :
    (buildReport cheerio gbpLookup now url businessName location html).scores.gbp =
      (if (gbpLookup businessName (cityOf location)).found then 100 else 0) := rfl

lemma buildReport_scores_overall :
    (buildReport cheerio gbpLookup now url businessName location html).scores.overall =
      jsRound100 (30 * min 100 (onPageScoreOf
          (mkOnPageChecks (mkPageData (cheerio html) (strLower html)) (cityOf location))) +
        35 * min 100 (localScoreOf (mkLocalChecks html (strLower html) (cityOf location))) +
        15 * (if jsStartsWith (normalizeUrl url) "https" then 85 else 50) +
        20 * (if (gbpLookup businessName (cityOf location)).found then 100 else 0)) := rfl

lemma buildReport_issues :
    (buildReport cheerio gbpLookup now url businessName location html).issues =
      onPageIssuesOf (mkOnPageChecks (mkPageData (cheerio html) (strLower html)) (cityOf location))
          (mkPageData (cheerio html) (strLower html)) (cityOf location) ++
        localIssuesOf (mkLocalChecks html (strLower html) (cityOf location)) (cityOf location) ++
        (if jsStartsWith (normalizeUrl url) "https" then [] else [securityIssue]) ++
        (if (gbpLookup businessName (cityOf location)).found then [] else [gbpIssue]) := rfl

lemma buildReport_checksOnPage :
    (buildReport cheerio gbpLookup now url businessName location html).checksOnPage =
      mkOnPageChecks (mkPageData (cheerio html) (strLower html)) (cityOf location) := rfl

lemma buildReport_checksLocal :
    (buildReport cheerio gbpLookup now url businessName location html).checksLocal =
      mkLocalChecks html (strLower html) (cityOf location) := rfl

set_option maxHeartbeats 2000000 in
lemma buildReport_topRecommendation :
    (buildReport cheerio gbpLookup now url businessName location html).topRecommendation =
      topRecommendationOf
        (onPageIssuesOf
            (mkOnPageChecks (mkPageData (cheerio html) (strLower html)) (cityOf location))
            (mkPageData (cheerio html) (strLower html)) (cityOf location) ++
          localIssuesOf (mkLocalChecks html (strLower html) (cityOf location)) (cityOf location) ++
          (if jsStartsWith (normalizeUrl url) "https" then [] else [securityIssue]) ++
          (if (gbpLookup businessName (cityOf location)).found then [] else [gbpIssue])) := rfl

end Unfolding

lemma mkOnPageChecks_titleHasCity (pd : PageData) (city : String) :
    (mkOnPageChecks pd city).titleHasCity = strIncludes (strLower pd.title) city := rfl

lemma mkOnPageChecks_h1HasCity (pd : PageData) (city : String) :
    (mkOnPageChecks pd city).h1HasCity =
      pd.h1s.any (fun h => strIncludes (strLower h) city) := rfl

lemma mkLocalChecks_cityInContent (html lh city : String) :
    (mkLocalChecks html lh city).cityInContent = strIncludes lh city := rfl

lemma mkLocalChecks_hasPhone (html lh city : String) :
    (mkLocalChecks html lh city).hasPhone = hasPhone html := rfl

lemma mkLocalChecks_hasAddress (html lh city : String) :
    (mkLocalChecks html lh city).hasAddress = hasAddress html := rfl

lemma mkLocalChecks_hasLocalSchema (html lh city : String) :
    (mkLocalChecks html lh city).hasLocalSchema =
      (strIncludes lh "localbusiness" || strIncludes lh "\"@type\": \"localbusiness\"") := rfl

lemma mkPageData_h1s (dom : DomData) (lh : String) :
    (mkPageData dom lh).h1s = dom.h1s.map jsTrimS := rfl

/-! ## Claim theorems -/

/-- C2 (amended): a fetch failure yields the error-shaped result carrying
the failure message in its `error` field with every sub-score equal to 0
and no issues list at all, and the outcome does not depend on the listing
lookup, which is therefore never invoked. -/
theorem fetch_failure_zero_scores (cheerio : String → DomData)
    (g1 g2 : String → String → ListingResult) (now url businessName location e : String) :
    analyzeWebsite cheerio g1 now url businessName location (Except.error e) =
      AnalyzeResult.err e ⟨0, 0, 0, 0, 0⟩ ∧
    analyzeWebsite cheerio g1 now url businessName location (Except.error e) =
      analyzeWebsite cheerio g2 now url businessName location (Except.error e) :=
  ⟨rfl, rfl⟩

/-- C2 (counterexample): on a fetch failure the analyzer does not return
an ok `Report` at all, so no issues list with a single Error-category
entry exists; the failure message lives in the `error` field instead. -/
theorem fetch_failure_has_no_issue_list :
    ¬ ∃ r : Report,
        analyzeWebsite (fun _ => emptyDom) noFindLookup "2026-01-01T00:00:00.000Z"
            "https://example.com" "Biz" "Lancaster, PA"
            (Except.error "timeout of 20000ms exceeded") = AnalyzeResult.ok r ∧
          r.issues.length = 1 := by
  rintro ⟨r, h, -⟩
  simp [analyzeWebsite] at h

/-- C9: with the fetch, DOM extraction and listing lookup fixed, the
analysis depends on the clock only through the `analyzedAt` field: two
invocations at different times agree once that field is overwritten. -/
theorem deterministic_up_to_analyzedAt (cheerio : String → DomData)
    (gbpLookup : String → String → ListingResult)
    (now1 now2 url businessName location : String) (fetched : Except String String) :
    withAnalyzedAt "" (analyzeWebsite cheerio gbpLookup now1 url businessName location fetched) =
      withAnalyzedAt ""
        (analyzeWebsite cheerio gbpLookup now2 url businessName location fetched) := by
  cases fetched <;> rfl

/-- C3: on every successful analysis the overall score is the round of the
fixed weighted combination of the four sub-scores, and the weights sum
to 1. -/
theorem overall_is_weighted_round (cheerio : String → DomData)
    (gbpLookup : String → String → ListingResult) (now url businessName location html : String) :
    (((buildReport cheerio gbpLookup now url businessName location html).scores.overall : ℤ) =
      round
        (((buildReport cheerio gbpLookup now url businessName location html).scores.onPage : ℚ) *
            0.3 +
          ((buildReport cheerio gbpLookup now url businessName location html).scores.«local» : ℚ) *
            0.35 +
          ((buildReport cheerio gbpLookup now url businessName location
                html).scores.technical : ℚ) * 0.15 +
          ((buildReport cheerio gbpLookup now url businessName location html).scores.gbp : ℚ) *
            0.2)) ∧
      (0.3 + 0.35 + 0.15 + 0.2 : ℚ) = 1 := by
  constructor
  · rw [buildReport_scores_overall, buildReport_scores_onPage, buildReport_scores_local,
      buildReport_scores_technical, buildReport_scores_gbp]
    exact jsRound100_eq_round _ _ _ _
  · norm_num

/-- C4: every sub-score and the overall score of any produced result,
successful or not, lies in the interval from 0 to 100. -/
theorem scores_within_bounds (cheerio : String → DomData)
    (gbpLookup : String → String → ListingResult) (now url businessName location : String)
    (fetched : Except String String) :
    0 ≤ (scoresOf (analyzeWebsite cheerio gbpLookup now url businessName location
        fetched)).overall ∧
    (scoresOf (analyzeWebsite cheerio gbpLookup now url businessName location
        fetched)).overall ≤ 100 ∧
    (scoresOf (analyzeWebsite cheerio gbpLookup now url businessName location
        fetched)).onPage ≤ 100 ∧
    (scoresOf (analyzeWebsite cheerio gbpLookup now url businessName location
        fetched)).«local» ≤ 100 ∧
    (scoresOf (analyzeWebsite cheerio gbpLookup now url businessName location
        fetched)).technical ≤ 100 ∧
    (scoresOf (analyzeWebsite cheerio gbpLookup now url businessName location
        fetched)).gbp ≤ 100 := by
  cases fetched with
  | error e => exact ⟨Nat.zero_le _, by simp [analyzeWebsite, scoresOf]⟩
  | ok html =>
    refine ⟨Nat.zero_le _, ?_, ?_, ?_, ?_, ?_⟩
    · show (buildReport cheerio gbpLookup now url businessName location html).scores.overall ≤ 100
      rw [buildReport_scores_overall]
      exact jsRound100_le _ _ _ _ (Nat.min_le_left _ _) (Nat.min_le_left _ _)
        (ite_le (by norm_num) (by norm_num)) (ite_le (by norm_num) (by norm_num))
    · exact Nat.min_le_left _ _
    · exact Nat.min_le_left _ _
    · exact ite_le (by norm_num) (by norm_num)
    · exact ite_le (by norm_num) (by norm_num)

/-- C7 (amended): the top recommendation is the fix text of the first
critical issue prefixed with a Priority marker when a critical issue
exists, else the fix text of the first issue prefixed with a Next marker,
else the static positive message. -/
theorem topRecommendation_selection (cheerio : String → DomData)
    (gbpLookup : String → String → ListingResult) (now url businessName location html : String) :
    (buildReport cheerio gbpLookup now url businessName location html).topRecommendation =
      (match (buildReport cheerio gbpLookup now url businessName location html).issues.filter
          (fun i => i.priority == "critical") with
       | c :: _ => "Priority: " ++ c.fix
       | [] =>
         match (buildReport cheerio gbpLookup now url businessName location html).issues with
         | i :: _ => "Next: " ++ i.fix
         | [] => "Great job! Get more reviews to improve rankings.") := by
  rw [buildReport_topRecommendation, buildReport_issues]
  rfl

/-- C7 (counterexample): on a fixture whose first critical issue has fix
text telling to add the city to the title tag, the top recommendation is
that fix text with the Priority marker prepended, not the fix text
itself. -/
theorem topRecommendation_is_not_bare_fix :
    ((buildReport (fun _ => emptyDom) noFindLookup "t" "https://x.com" "Biz" "Zzz, PA"
          "").issues.filter (fun i => i.priority == "critical")).head?.map Issue.fix =
      some "Add \"zzz\" to title tag" ∧
    (buildReport (fun _ => emptyDom) noFindLookup "t" "https://x.com" "Biz" "Zzz, PA"
        "").topRecommendation ≠ "Add \"zzz\" to title tag" := by
  constructor
  · decide
  · decide

lemma mem_ite_nil {x y : Issue} {b : Bool} :
    (x ∈ if b = true then ([] : List Issue) else [y]) ↔ b = false ∧ x = y := by
  cases b <;> simp

lemma mem_ite_meta {x m1 m2 : Issue} {b : Bool} {p : Prop} [Decidable p] :
    (x ∈ if b = true then ([] : List Issue) else if p then [m1] else [m2]) ↔
      b = false ∧ ((p ∧ x = m1) ∨ (¬p ∧ x = m2)) := by
  cases b
  · by_cases hp : p <;> simp [hp]
  · simp

/-- C1 (amended): when every check passes (on-page checks all true, local
checks all true, listing found, HTTPS url) the produced report has an
empty issues list and overall score 91, the maximum the point table can
produce: the local sub-score tops out at 80 and the technical one at 85,
so round of the weighted sum is 91, not 100. -/
theorem all_checks_pass_report (cheerio : String → DomData)
    (gbpLookup : String → String → ListingResult) (now url businessName location html : String)
    (hop : mkOnPageChecks (mkPageData (cheerio html) (strLower html)) (cityOf location) =
      ⟨true, true, true, true, true, true, true⟩)
    (hlc : mkLocalChecks html (strLower html) (cityOf location) = ⟨true, true, true, true⟩)
    (hgbp : (gbpLookup businessName (cityOf location)).found = true)
    (hssl : jsStartsWith (normalizeUrl url) "https" = true) :
    (buildReport cheerio gbpLookup now url businessName location html).issues = [] ∧
    (buildReport cheerio gbpLookup now url businessName location html).scores.overall = 91 := by
  constructor
  · rw [buildReport_issues, hop, hlc, hssl, hgbp]
    simp [onPageIssuesOf, localIssuesOf]
  · rw [buildReport_scores_overall, hop, hlc, hssl, hgbp]
    decide

set_option maxRecDepth 40000 in
/-- C1 (counterexample): a fixture on which every check passes (title of
36 characters with the city, meta of 130 characters, one H1 with the
city, a 300-word body, phone, address, LocalBusiness marker, HTTPS url
and a found listing) yields an empty issues list but an overall score
different from 100. -/
theorem all_checks_pass_overall_not_100 :
    mkOnPageChecks (mkPageData passDom (strLower passHtml)) (cityOf "Lancaster, PA") =
      ⟨true, true, true, true, true, true, true⟩ ∧
    mkLocalChecks passHtml (strLower passHtml) (cityOf "Lancaster, PA") =
      ⟨true, true, true, true⟩ ∧
    (foundLookup "Joes Pizza" (cityOf "Lancaster, PA")).found = true ∧
    jsStartsWith (normalizeUrl "https://joespizza.com") "https" = true ∧
    (buildReport (fun _ => passDom) foundLookup "2026-01-01T00:00:00.000Z"
        "https://joespizza.com" "Joes Pizza" "Lancaster, PA" passHtml).issues = [] ∧
    (buildReport (fun _ => passDom) foundLookup "2026-01-01T00:00:00.000Z"
        "https://joespizza.com" "Joes Pizza" "Lancaster, PA" passHtml).scores.overall ≠ 100 := by
  refine ⟨by decide, by decide, by decide, by decide, by decide, by decide⟩

set_option maxRecDepth 40000 in
/-- C1 (witness): the all-pass fixture satisfies the hypotheses of the
amended theorem and therefore gets an empty issues list and overall 91. -/
theorem all_checks_pass_report_witness :
    (mkOnPageChecks (mkPageData passDom (strLower passHtml)) (cityOf "Lancaster, PA") =
        ⟨true, true, true, true, true, true, true⟩ ∧
      mkLocalChecks passHtml (strLower passHtml) (cityOf "Lancaster, PA") =
        ⟨true, true, true, true⟩ ∧
      (foundLookup "Joes Pizza" (cityOf "Lancaster, PA")).found = true ∧
      jsStartsWith (normalizeUrl "https://joespizza.com") "https" = true) ∧
    ((buildReport (fun _ => passDom) foundLookup "2026-01-01T00:00:00.000Z"
        "https://joespizza.com" "Joes Pizza" "Lancaster, PA" passHtml).issues = [] ∧
      (buildReport (fun _ => passDom) foundLookup "2026-01-01T00:00:00.000Z"
        "https://joespizza.com" "Joes Pizza" "Lancaster, PA" passHtml).scores.overall = 91) :=
  ⟨⟨by decide, by decide, by decide, by decide⟩,
    all_checks_pass_report (fun _ => passDom) foundLookup "2026-01-01T00:00:00.000Z"
      "https://joespizza.com" "Joes Pizza" "Lancaster, PA" passHtml
      (by decide) (by decide) (by decide) (by decide)⟩

lemma mk_nil_eq_empty : String.mk [] = "" := rfl

/-- C10: when the first comma-segment of the location trims to the empty
string the city token is empty, so the title check and the
city-in-content check hold vacuously (their points are always awarded and
their issues never appear), and the H1-city check reduces to the
existence of at least one H1. -/
theorem empty_city_vacuous_checks (cheerio : String → DomData)
    (gbpLookup : String → String → ListingResult) (now url businessName location html : String)
    (hc : jsTrimList ((splitComma [] location.data).headD []) = []) :
    (buildReport cheerio gbpLookup now url businessName location html).checksOnPage.titleHasCity =
      true ∧
    (buildReport cheerio gbpLookup now url businessName location html).checksLocal.cityInContent =
      true ∧
    20 ≤ (buildReport cheerio gbpLookup now url businessName location html).scores.onPage ∧
    30 ≤ (buildReport cheerio gbpLookup now url businessName location html).scores.«local» ∧
    (buildReport cheerio gbpLookup now url businessName location html).checksOnPage.h1HasCity =
      !(cheerio html).h1s.isEmpty ∧
    (∀ i ∈ (buildReport cheerio gbpLookup now url businessName location html).issues,
      i.issue ≠ "Title missing city" ∧ i.issue ≠ "Missing city in content") := by
  have hcity : cityOf location = "" := by
    unfold cityOf
    cases hsp : splitComma [] location.data with
    | nil => rfl
    | cons a t =>
      rw [hsp] at hc
      simp only [List.headD_cons] at hc
      have h1 : jsTrimS (String.mk a) = "" := by
        show String.mk (jsTrimList a) = ""
        rw [hc]
      simp only [List.map_cons, List.headD_cons]
      rw [h1]
      rfl
  have hTitle : (mkOnPageChecks (mkPageData (cheerio html) (strLower html)) "").titleHasCity =
      true := by
    rw [mkOnPageChecks_titleHasCity]
    exact strIncludes_empty _
  have hCity : (mkLocalChecks html (strLower html) "").cityInContent = true := by
    rw [mkLocalChecks_cityInContent]
    exact strIncludes_empty _
  refine ⟨?_, ?_, ?_, ?_, ?_, ?_⟩
  · rw [buildReport_checksOnPage, hcity]
    exact hTitle
  · rw [buildReport_checksLocal, hcity]
    exact hCity
  · rw [buildReport_scores_onPage, hcity]
    exact le_min (by norm_num) (onPageScore_ge_20 _ hTitle)
  · rw [buildReport_scores_local, hcity]
    exact le_min (by norm_num) (localScore_ge_30 _ hCity)
  · rw [buildReport_checksOnPage, hcity, mkOnPageChecks_h1HasCity, mkPageData_h1s]
    rw [any_eq_not_isEmpty _ _ (fun x => strIncludes_empty _)]
    rcases hl : (cheerio html).h1s with - | ⟨a, t⟩ <;> simp
  · intro i hi
    rw [buildReport_issues, hcity] at hi
    simp only [onPageIssuesOf, localIssuesOf, hTitle, hCity, List.append_assoc,
      List.mem_append, mem_ite_nil, mem_ite_meta, if_true, eq_self_iff_true,
      List.not_mem_nil, false_or, or_false, List.nil_append, List.append_nil] at hi
    rcases hi with ⟨-, rfl⟩ | ⟨-, ⟨-, rfl⟩ | ⟨-, rfl⟩⟩ | ⟨-, rfl⟩ | ⟨-, rfl⟩ | ⟨-, rfl⟩ |
      ⟨-, rfl⟩ | ⟨-, rfl⟩ | ⟨-, rfl⟩ | ⟨-, rfl⟩
    all_goals refine ⟨?_, ?_⟩
    all_goals first
      | decide
      | (by_cases hp : (mkPageData (cheerio html) (strLower html)).h1s.length = 0 <;>
          simp [hp])

/-- C10 (witness): a location starting with a comma has an empty first
segment, so the vacuous-check consequences hold on a concrete fixture. -/
theorem empty_city_vacuous_checks_witness :
    jsTrimList ((splitComma [] (", PA" : String).data).headD []) = [] ∧
    ((buildReport (fun _ => emptyDom) noFindLookup "t" "https://x.com" "Biz" ", PA"
        "").checksOnPage.titleHasCity = true ∧
      (buildReport (fun _ => emptyDom) noFindLookup "t" "https://x.com" "Biz" ", PA"
        "").checksLocal.cityInContent = true ∧
      20 ≤ (buildReport (fun _ => emptyDom) noFindLookup "t" "https://x.com" "Biz" ", PA"
        "").scores.onPage ∧
      30 ≤ (buildReport (fun _ => emptyDom) noFindLookup "t" "https://x.com" "Biz" ", PA"
        "").scores.«local» ∧
      (buildReport (fun _ => emptyDom) noFindLookup "t" "https://x.com" "Biz" ", PA"
        "").checksOnPage.h1HasCity = !emptyDom.h1s.isEmpty ∧
      (∀ i ∈ (buildReport (fun _ => emptyDom) noFindLookup "t" "https://x.com" "Biz" ", PA"
          "").issues,
        i.issue ≠ "Title missing city" ∧ i.issue ≠ "Missing city in content")) :=
  ⟨by decide,
    empty_city_vacuous_checks (fun _ => emptyDom) noFindLookup "t" "https://x.com" "Biz" ", PA"
      "" (by decide)⟩

/-- C8: on an input whose phone and address checks both fail, switching to
an HTML on which both pass while every other extracted signal (DOM
extraction, city-in-content and schema substring tests) is unchanged
raises the local sub-score by exactly 25 and removes the NAP issue, all
other issues staying the same. -/
theorem nap_fix_adds_exactly_25 (cheerio : String → DomData)
    (gbpLookup : String → String → ListingResult)
    (now url businessName location html1 html2 : String)
    (hdom : mkPageData (cheerio html1) (strLower html1) =
      mkPageData (cheerio html2) (strLower html2))
    (hcity : strIncludes (strLower html1) (cityOf location) =
      strIncludes (strLower html2) (cityOf location))
    (hschema : (strIncludes (strLower html1) "localbusiness" ||
        strIncludes (strLower html1) "\"@type\": \"localbusiness\"") =
      (strIncludes (strLower html2) "localbusiness" ||
        strIncludes (strLower html2) "\"@type\": \"localbusiness\""))
    (hp1 : hasPhone html1 = false) (ha1 : hasAddress html1 = false)
    (hp2 : hasPhone html2 = true) (ha2 : hasAddress html2 = true) :
    (buildReport cheerio gbpLookup now url businessName location html2).scores.«local» =
      (buildReport cheerio gbpLookup now url businessName location html1).scores.«local» + 25 ∧
    ∃ A B,
      (buildReport cheerio gbpLookup now url businessName location html1).issues =
        A ++ napIssue :: B ∧
      (buildReport cheerio gbpLookup now url businessName location html2).issues = A ++ B := by
  constructor
  · rw [buildReport_scores_local, buildReport_scores_local]
    simp only [localScoreOf, mkLocalChecks_cityInContent, mkLocalChecks_hasPhone,
      mkLocalChecks_hasAddress, mkLocalChecks_hasLocalSchema, hp1, ha1, hp2, ha2, hcity,
      hschema]
    by_cases hb1 : strIncludes (strLower html2) (cityOf location) = true <;>
      by_cases hb2 : (strIncludes (strLower html2) "localbusiness" ||
        strIncludes (strLower html2) "\"@type\": \"localbusiness\"") = true <;>
      simp [hb1, hb2]
  · refine ⟨onPageIssuesOf
        (mkOnPageChecks (mkPageData (cheerio html2) (strLower html2)) (cityOf location))
        (mkPageData (cheerio html2) (strLower html2)) (cityOf location) ++
        (if strIncludes (strLower html2) (cityOf location) = true then ([] : List Issue) else
          [⟨"critical", "Content", "Missing city in content",
            "Mention \"" ++ cityOf location ++ "\" 3-5 times"⟩]),
      (if (strIncludes (strLower html2) "localbusiness" ||
          strIncludes (strLower html2) "\"@type\": \"localbusiness\"") = true
        then ([] : List Issue) else [schemaIssue]) ++
        (if jsStartsWith (normalizeUrl url) "https" then ([] : List Issue)
          else [securityIssue]) ++
        (if (gbpLookup businessName (cityOf location)).found then ([] : List Issue)
          else [gbpIssue]), ?_, ?_⟩
    · rw [buildReport_issues, hdom]
      simp only [localIssuesOf, mkLocalChecks_cityInContent, mkLocalChecks_hasPhone,
        mkLocalChecks_hasAddress, mkLocalChecks_hasLocalSchema, hp1, ha1, hcity, hschema,
        Bool.and_false, if_false]
      simp [List.append_assoc]
    · rw [buildReport_issues]
      simp only [localIssuesOf, mkLocalChecks_cityInContent, mkLocalChecks_hasPhone,
        mkLocalChecks_hasAddress, mkLocalChecks_hasLocalSchema, hp2, ha2, hcity, hschema,
        Bool.and_self, if_true]
      simp [List.append_assoc]

set_option maxRecDepth 4000 in
/-- C8 (witness): going from an empty page to one with a phone and an
address (every other signal unchanged) adds exactly 25 local points and
drops the NAP issue. -/
theorem nap_fix_adds_exactly_25_witness :
    (mkPageData ((fun _ => emptyDom) "") (strLower "") =
        mkPageData ((fun _ => emptyDom) "(111) 222-3333 45 Oak Road x")
          (strLower "(111) 222-3333 45 Oak Road x") ∧
      strIncludes (strLower "") (cityOf "Zzz, PA") =
        strIncludes (strLower "(111) 222-3333 45 Oak Road x") (cityOf "Zzz, PA") ∧
      (strIncludes (strLower "") "localbusiness" ||
          strIncludes (strLower "") "\"@type\": \"localbusiness\"") =
        (strIncludes (strLower "(111) 222-3333 45 Oak Road x") "localbusiness" ||
          strIncludes (strLower "(111) 222-3333 45 Oak Road x")
            "\"@type\": \"localbusiness\"") ∧
      hasPhone "" = false ∧ hasAddress "" = false ∧
      hasPhone "(111) 222-3333 45 Oak Road x" = true ∧
      hasAddress "(111) 222-3333 45 Oak Road x" = true) ∧
    ((buildReport (fun _ => emptyDom) noFindLookup "t" "https://x.com" "Biz" "Zzz, PA"
          "(111) 222-3333 45 Oak Road x").scores.«local» =
        (buildReport (fun _ => emptyDom) noFindLookup "t" "https://x.com" "Biz" "Zzz, PA"
          "").scores.«local» + 25 ∧
      ∃ A B,
        (buildReport (fun _ => emptyDom) noFindLookup "t" "https://x.com" "Biz" "Zzz, PA"
          "").issues = A ++ napIssue :: B ∧
        (buildReport (fun _ => emptyDom) noFindLookup "t" "https://x.com" "Biz" "Zzz, PA"
          "(111) 222-3333 45 Oak Road x").issues = A ++ B) :=
  ⟨⟨by decide, by decide, by decide, by decide, by decide, by decide, by decide⟩,
    nap_fix_adds_exactly_25 (fun _ => emptyDom) noFindLookup "t" "https://x.com" "Biz"
      "Zzz, PA" "" "(111) 222-3333 45 Oak Road x" (by decide) (by decide) (by decide)
      (by decide) (by decide) (by decide) (by decide)⟩

/-- C5 (amended): the listing lookup returns the no-key marker without
consulting the places API when no truthy key is configured; with a key it
issues up to three queries (the raw name, the name with punctuation
stripped, and the lowercased name with every occurrence of inc, llc and
corp removed and trimmed, each combined with the city): a query failure or
three empty result sets give found false without throwing, and the first
non-empty result list yields found true with the first result's name,
rating, review count and address. -/
theorem checkGBP_spec :
    (∀ api businessName city,
      checkGBP none api businessName city = { found := false, error := some "No API key" }) ∧
    (∀ api businessName city,
      checkGBP (some "") api businessName city =
        { found := false, error := some "No API key" }) ∧
    (∀ key api businessName city, keyTruthy (some key) = true →
      (∀ q, q ∈ gbpQueries businessName city → noHit (api q)) →
      (checkGBP (some key) api businessName city).found = false) ∧
    (∀ key api businessName city e, keyTruthy (some key) = true →
      api (businessName ++ " " ++ city) = Except.error e →
      checkGBP (some key) api businessName city = { found := false, error := some e }) ∧
    (∀ key api businessName city p l, keyTruthy (some key) = true →
      api (businessName ++ " " ++ city) = Except.ok (p :: l) →
      checkGBP (some key) api businessName city = foundResult p) ∧
    (∀ key api businessName city p l, keyTruthy (some key) = true →
      api (businessName ++ " " ++ city) = Except.ok [] →
      api (stripPunct businessName ++ " " ++ city) = Except.ok (p :: l) →
      checkGBP (some key) api businessName city = foundResult p) ∧
    (∀ key api businessName city p l, keyTruthy (some key) = true →
      api (businessName ++ " " ++ city) = Except.ok [] →
      api (stripPunct businessName ++ " " ++ city) = Except.ok [] →
      api (jsTrimS (removeEntS (strLower businessName)) ++ " " ++ city) =
        Except.ok (p :: l) →
      checkGBP (some key) api businessName city = foundResult p) := by
  refine ⟨fun api bn city => rfl, fun api bn city => rfl, ?_, ?_, ?_, ?_, ?_⟩
  · intro key api bn city hk hq
    rw [checkGBP, if_pos hk]
    have n1 := hq (bn ++ " " ++ city) (by simp [gbpQueries])
    have n2 := hq (stripPunct bn ++ " " ++ city) (by simp [gbpQueries])
    have n3 := hq (jsTrimS (removeEntS (strLower bn)) ++ " " ++ city) (by simp [gbpQueries])
    rcases h1 : api (bn ++ " " ++ city) with e1 | l1
    · simp [gbpQueries, runQueries, h1]
    · rw [h1] at n1
      simp only [noHit] at n1
      subst n1
      rcases h2 : api (stripPunct bn ++ " " ++ city) with e2 | l2
      · simp [gbpQueries, runQueries, h1, h2]
      · rw [h2] at n2
        simp only [noHit] at n2
        subst n2
        rcases h3 : api (jsTrimS (removeEntS (strLower bn)) ++ " " ++ city) with e3 | l3
        · simp [gbpQueries, runQueries, h1, h2, h3]
        · rw [h3] at n3
          simp only [noHit] at n3
          subst n3
          simp [gbpQueries, runQueries, h1, h2, h3]
  · intro key api bn city e hk h1
    rw [checkGBP, if_pos hk]
    simp [gbpQueries, runQueries, h1]
  · intro key api bn city p l hk h1
    rw [checkGBP, if_pos hk]
    simp [gbpQueries, runQueries, h1, foundResult]
  · intro key api bn city p l hk h1 h2
    rw [checkGBP, if_pos hk]
    simp [gbpQueries, runQueries, h1, h2, foundResult]
  · intro key api bn city p l hk h1 h2 h3
    rw [checkGBP, if_pos hk]
    simp [gbpQueries, runQueries, h1, h2, h3, foundResult]

/-- C5 (witness): concrete lookups exercising the no-key marker, the
all-empty case, the caught query failure and a first-query hit. -/
theorem checkGBP_spec_witness :
    checkGBP none (fun _ => Except.ok []) "Biz" "lancaster" =
      { found := false, error := some "No API key" } ∧
    keyTruthy (some "k") = true ∧
    (checkGBP (some "k") (fun _ => Except.ok []) "Biz" "lancaster").found = false ∧
    checkGBP (some "k") (fun _ => Except.error "network down") "Biz" "lancaster" =
      { found := false, error := some "network down" } ∧
    checkGBP (some "k")
        (fun q => if q == "Biz lancaster" then Except.ok [⟨"Biz", 4, 12, "1 Main St"⟩]
          else Except.ok []) "Biz" "lancaster" = foundResult ⟨"Biz", 4, 12, "1 Main St"⟩ :=
  ⟨checkGBP_spec.1 _ _ _, by decide,
    checkGBP_spec.2.2.1 "k" _ _ _ (by decide) (fun q _ => rfl),
    checkGBP_spec.2.2.2.1 "k" _ _ _ _ (by decide) rfl,
    checkGBP_spec.2.2.2.2.1 "k" _ _ _ _ _ (by decide) rfl⟩

/-- C5 (counterexample): for the name Pinch Inc the third query variation
is not the name with a legal-entity suffix removed: the global replacement
also deletes the inc hidden inside Pinch, giving ph rather than pinch. -/
theorem third_query_not_suffix_removal :
    (gbpQueries "Pinch Inc" "Lancaster").getD 2 "" = "ph Lancaster" ∧
    ("ph Lancaster" : String) ≠ "pinch Lancaster" := by
  refine ⟨by decide, by decide⟩

/-- C6 (amended): the structured-data check that awards the 25 local
points and otherwise appends the Schema issue passes exactly when the
lowercased HTML contains the substring localbusiness: the second disjunct
of the source check is subsumed by the first, and the at-type and
schema-org markers computed into the unused pageData flag play no role in
it. -/
theorem schema_check_characterization (cheerio : String → DomData)
    (gbpLookup : String → String → ListingResult) (now url businessName location html : String) :
    ((buildReport cheerio gbpLookup now url businessName location
        html).checksLocal.hasLocalSchema = strIncludes (strLower html) "localbusiness") ∧
    (schemaIssue ∈ (buildReport cheerio gbpLookup now url businessName location html).issues ↔
      (buildReport cheerio gbpLookup now url businessName location
        html).checksLocal.hasLocalSchema = false) ∧
    ((buildReport cheerio gbpLookup now url businessName location html).scores.«local» =
      min 100
        ((if (buildReport cheerio gbpLookup now url businessName location
            html).checksLocal.cityInContent then 30 else 0) +
          (if (buildReport cheerio gbpLookup now url businessName location
              html).checksLocal.hasPhone &&
            (buildReport cheerio gbpLookup now url businessName location
              html).checksLocal.hasAddress then 25 else 0) +
          (if (buildReport cheerio gbpLookup now url businessName location
            html).checksLocal.hasLocalSchema then 25 else 0))) := by
  refine ⟨?_, ?_, ?_⟩
  · rw [buildReport_checksLocal, mkLocalChecks_hasLocalSchema]
    exact hasLocalSchema_eq _
  · rw [buildReport_issues, buildReport_checksLocal]
    constructor
    · intro hm
      simp only [onPageIssuesOf, localIssuesOf, List.append_assoc, List.mem_append,
        mem_ite_nil, mem_ite_meta] at hm
      simp [schemaIssue, napIssue, securityIssue, gbpIssue, Issue.mk.injEq] at hm
      exact hm
    · intro hf
      simp [localIssuesOf, hf]
  · rw [buildReport_scores_local, buildReport_checksLocal]
    rfl

set_option maxRecDepth 4000 in
/-- C6 (counterexample): an HTML body containing schema-org but no
localbusiness marker falsifies the claimed three-way disjunction: the
check that controls the Schema points evaluates to false there although
the disjunction is true. -/
theorem schema_check_ignores_schemaorg :
    ¬ ((buildReport (fun _ => emptyDom) noFindLookup "t" "https://x.com" "Biz" "Lancaster, PA"
          "<p>see schema.org</p>").checksLocal.hasLocalSchema =
        (strIncludes (strLower "<p>see schema.org</p>") "localbusiness" ||
          strIncludes (strLower "<p>see schema.org</p>") "\"@type\"" ||
          strIncludes (strLower "<p>see schema.org</p>") "schema.org")) := by
  decide
